import Mathlib

/-!
Verification development for the agent-trace SDK (shallow embedding).

The Python source is embedded as follows:
* timestamps: each call of the source function `now()` is modelled by an
  explicit `Nat` parameter supplied at the call site;
* Python truthiness of an `Optional[str]` (the `if error:` tests in the
  `complete` methods) is the predicate `strTruthy`: `None` and the empty
  string are falsy, every other string is truthy;
* the two `ContextVar` slots of `context.py` (plus the
  last-LLM-call-with-tools slot, see below) form the state record `CtxState`;
  stateful code is embedded by explicit state passing;
* a Python exception `e` is modelled by `Exc`, whose `msg` field is `str(e)`;
  fallible code returns `Except Exc _`;
* dynamic Python values appearing as tool arguments, results and trace
  input/output are modelled by the inductive `Value`.
-/

namespace AgentTrace

/-- Dynamic Python values used as tool arguments, results and trace
input/output.  `Option Value` models an `Optional[Any]` slot, with
`Option.none` standing for Python `None`.  Only scalar values occur in the
scenarios the claims describe. -/
inductive Value where
  | str (s : String)
  | int (n : Int)
  | boolean (b : Bool)
  deriving Repr, DecidableEq

/-- A Python exception; `msg` is its stringification `str(e)`. -/
structure Exc where
  msg : String
  deriving Repr, DecidableEq

/-- Python truthiness of an `Optional[str]`: `None` and `""` are falsy. -/
def strTruthy : Option String → Bool
  | Option.none => false
  | some s => !(s == "")

/-- models.py `ToolExecutionStatus`. -/
inductive ToolExecutionStatus where
  | SUCCESS
  | ERROR
  | PENDING
  deriving Repr, DecidableEq

/-- models.py `STTStatus`. -/
inductive STTStatus where
  | SUCCESS
  | ERROR
  | PENDING
  deriving Repr, DecidableEq

/-- models.py `TTSStatus`. -/
inductive TTSStatus where
  | SUCCESS
  | ERROR
  | PENDING
  deriving Repr, DecidableEq

/-- models.py `TraceStatus`. -/
inductive TraceStatus where
  | ACTIVE
  | COMPLETED
  | ERROR
  deriving Repr, DecidableEq

/-- models.py `ToolExecution` (dataclass fields, lines 34-44). -/
structure ToolExecution where
  execution_id : String
  tool_name : String
  arguments : List (String × Value)
  result : Option Value
  error : Option String
  started_at : Nat
  ended_at : Option Nat
  status : ToolExecutionStatus
  llm_call_id : Option String
  deriving Repr, DecidableEq

/-- A freshly constructed `ToolExecution(tool_name=…, arguments=…)` with the
dataclass defaults of models.py (result `None`, error `None`, status
`PENDING`, `llm_call_id` `None`); `t0` is the `started_at` default-factory
timestamp and `execId` the generated `execution_id`. -/
def ToolExecution.init (execId toolName : String) (args : List (String × Value))
    (t0 : Nat) : ToolExecution :=
  { execution_id := execId
    tool_name := toolName
    arguments := args
    result := Option.none
    error := Option.none
    started_at := t0
    ended_at := Option.none
    status := ToolExecutionStatus.PENDING
    llm_call_id := Option.none }

/-- models.py `ToolExecution.complete` (lines 46-53): sets `ended_at` to the
current time unconditionally, then branches on the truthiness of `error`. -/
def ToolExecution.complete (e : ToolExecution) (t : Nat)
    (result : Option Value) (error : Option String) : ToolExecution :=
  let e := { e with ended_at := some t }
  if strTruthy error then
    { e with error := error, status := ToolExecutionStatus.ERROR }
  else
    { e with result := result, status := ToolExecutionStatus.SUCCESS }

/-- models.py `ToolCallRequest` (lines 74-79). -/
structure ToolCallRequest where
  tool_call_id : String
  tool_name : String
  arguments_raw : String
  arguments_parsed : Option (List (String × Value))
  deriving Repr, DecidableEq

/-- models.py `STTCall` (dataclass fields, lines 82-99). -/
structure STTCall where
  call_id : String
  provider : String
  model : String
  audio_duration_ms : Option Int
  audio_format : Option String
  language : Option String
  transcript : Option String
  confidence : Option Int
  word_timestamps : Option (List Value)
  started_at : Nat
  ended_at : Option Nat
  status : STTStatus
  error : Option String
  deriving Repr, DecidableEq

/-- models.py `STTCall.complete` (lines 101-108). -/
def STTCall.complete (c : STTCall) (t : Nat)
    (transcript : Option String) (error : Option String) : STTCall :=
  let c := { c with ended_at := some t }
  if strTruthy error then
    { c with error := error, status := STTStatus.ERROR }
  else
    { c with transcript := transcript, status := STTStatus.SUCCESS }

/-- models.py `TTSCall` (dataclass fields, lines 117-135). -/
structure TTSCall where
  call_id : String
  provider : String
  model : String
  voice : Option String
  input_text : String
  input_chars : Nat
  output_audio_duration_ms : Option Int
  output_format : Option String
  started_at : Nat
  ended_at : Option Nat
  status : TTSStatus
  error : Option String
  deriving Repr, DecidableEq

/-- models.py `TTSCall.complete` (lines 137-143). -/
def TTSCall.complete (c : TTSCall) (t : Nat) (error : Option String) : TTSCall :=
  let c := { c with ended_at := some t }
  if strTruthy error then
    { c with error := error, status := TTSStatus.ERROR }
  else
    { c with status := TTSStatus.SUCCESS }

/-- models.py `TokenUsage` (lines 154-158). -/
structure TokenUsage where
  prompt_tokens : Int
  completion_tokens : Int
  total_tokens : Int
  deriving Repr, DecidableEq

/-- The dataclass defaults `TokenUsage()`. -/
def TokenUsage.init : TokenUsage :=
  { prompt_tokens := 0, completion_tokens := 0, total_tokens := 0 }

/-- models.py `LLMCall` (dataclass fields, lines 161-179).  The request
message list is kept abstract as pairs of role and content strings. -/
structure LLMCall where
  call_id : String
  provider : String
  model : String
  request_messages : List (String × String)
  response_content : Option String
  response_tool_calls : List ToolCallRequest
  response_finish_reason : Option String
  usage : TokenUsage
  started_at : Nat
  ended_at : Option Nat
  streaming : Bool
  deriving Repr, DecidableEq

/-- A freshly constructed
`LLMCall(provider=…, model=…, request_messages=…)` with the remaining
dataclass defaults of models.py; `t0` is the `started_at` timestamp and
`callId` the generated `call_id`. -/
def LLMCall.init (callId provider model : String)
    (msgs : List (String × String)) (t0 : Nat) : LLMCall :=
  { call_id := callId
    provider := provider
    model := model
    request_messages := msgs
    response_content := Option.none
    response_tool_calls := []
    response_finish_reason := Option.none
    usage := TokenUsage.init
    started_at := t0
    ended_at := Option.none
    streaming := false }

/-- models.py `LLMCall.complete` (lines 181-182): only sets `ended_at`. -/
def LLMCall.complete (c : LLMCall) (t : Nat) : LLMCall :=
  { c with ended_at := some t }

/-- models.py `LLMCall.has_tool_calls` (lines 190-192). -/
def LLMCall.has_tool_calls (c : LLMCall) : Bool :=
  c.response_tool_calls.length > 0

/-- models.py `Trace` (dataclass fields, lines 201-216).  The free-form
metadata map is omitted (no claim mentions it). -/
structure Trace where
  trace_id : String
  agent_name : String
  input : Option Value
  output : Option Value
  error : Option String
  started_at : Nat
  ended_at : Option Nat
  status : TraceStatus
  llm_calls : List LLMCall
  tool_executions : List ToolExecution
  stt_calls : List STTCall
  tts_calls : List TTSCall
  deriving Repr, DecidableEq

/-- A freshly constructed `Trace(agent_name=…)` with the dataclass defaults
of models.py (status `ACTIVE`, empty child lists), followed by the
assignment `trace.input = …` that the agent wrapper performs immediately
after construction. -/
def Trace.init (traceId name : String) (inp : Option Value) (t0 : Nat) : Trace :=
  { trace_id := traceId
    agent_name := name
    input := inp
    output := Option.none
    error := Option.none
    started_at := t0
    ended_at := Option.none
    status := TraceStatus.ACTIVE
    llm_calls := []
    tool_executions := []
    stt_calls := []
    tts_calls := [] }

/-- models.py `Trace.add_llm_call` (lines 218-219). -/
def Trace.add_llm_call (tr : Trace) (c : LLMCall) : Trace :=
  { tr with llm_calls := tr.llm_calls ++ [c] }

/-- models.py `Trace.add_tool_execution` (lines 221-222). -/
def Trace.add_tool_execution (tr : Trace) (e : ToolExecution) : Trace :=
  { tr with tool_executions := tr.tool_executions ++ [e] }

/-- models.py `Trace.add_stt_call` (lines 224-225). -/
def Trace.add_stt_call (tr : Trace) (c : STTCall) : Trace :=
  { tr with stt_calls := tr.stt_calls ++ [c] }

/-- models.py `Trace.add_tts_call` (lines 227-228). -/
def Trace.add_tts_call (tr : Trace) (c : TTSCall) : Trace :=
  { tr with tts_calls := tr.tts_calls ++ [c] }

/-- models.py `Trace.complete` (lines 230-237): sets `ended_at` to the
current time unconditionally, then branches on the truthiness of `error`. -/
def Trace.complete (tr : Trace) (t : Nat)
    (output : Option Value) (error : Option String) : Trace :=
  let tr := { tr with ended_at := some t }
  if strTruthy error then
    { tr with error := error, status := TraceStatus.ERROR }
  else
    { tr with output := output, status := TraceStatus.COMPLETED }

/-- The mutable context-variable slots of context.py: `_current_trace` and
`_current_llm_call`, plus the slot written by
`set_last_llm_call_with_tools` (see that definition).  The current trace is
held inline: Python mutates the trace object through the reference stored
in the slot, which explicit state passing renders as updating this field. -/
structure CtxState where
  current_trace : Option Trace
  current_llm_call : Option LLMCall
  last_llm_call_with_tools : Option LLMCall
  deriving Repr, DecidableEq

/-- context.py `get_current_trace` (lines 10-11). -/
def get_current_trace (s : CtxState) : Option Trace :=
  s.current_trace

/-- context.py `get_current_llm_call` (lines 14-15). -/
def get_current_llm_call (s : CtxState) : Option LLMCall :=
  s.current_llm_call

/-- context.py `TraceContext.__enter__` (lines 23-25): `ContextVar.set`
returns a token recording the previous value; the token is returned as the
second component. -/
def TraceContext.enter (s : CtxState) (tr : Trace) : CtxState × Option Trace :=
  ({ s with current_trace := some tr }, s.current_trace)

/-- context.py `TraceContext.__exit__` (lines 27-31): first
`_current_trace.reset(token)` restores the slot to the value saved at
`__enter__` time, then, when an exception is propagating, the trace is
completed with the stringified exception.  `tr` is the trace object held by
the context manager (`self.trace`), `t` the completion timestamp. -/
def TraceContext.exit (s : CtxState) (token : Option Trace) (tr : Trace)
    (exc : Option Exc) (t : Nat) : CtxState × Trace :=
  let s := { s with current_trace := token }
  match exc with
  | some e => (s, tr.complete t Option.none (some e.msg))
  | Option.none => (s, tr)

/-- context.py `LLMCallContext.__enter__` (lines 39-41). -/
def LLMCallContext.enter (s : CtxState) (c : LLMCall) : CtxState × Option LLMCall :=
  ({ s with current_llm_call := some c }, s.current_llm_call)

/-- context.py `LLMCallContext.__exit__` (lines 43-45):
`_current_llm_call.reset(token)`. -/
def LLMCallContext.exit (s : CtxState) (token : Option LLMCall) : CtxState :=
  { s with current_llm_call := token }

/-- context.py `record_llm_call` (lines 48-51): append to the current trace
when one is in scope, otherwise do nothing. -/
def record_llm_call (s : CtxState) (c : LLMCall) : CtxState :=
  match s.current_trace with
  | Option.none => s
  | some tr => { s with current_trace := some (tr.add_llm_call c) }

/-- context.py `record_tool_execution` (lines 54-60): when a trace is in
scope, stamp `llm_call_id` from the `_current_llm_call` slot (when that
slot is non-empty) and append the execution; with no trace in scope, do
nothing. -/
def record_tool_execution (s : CtxState) (e : ToolExecution) : CtxState :=
  match s.current_trace with
  | Option.none => s
  | some tr =>
    let e :=
      match s.current_llm_call with
      | some c => { e with llm_call_id := some c.call_id }
      | Option.none => e
    { s with current_trace := some (tr.add_tool_execution e) }

/-- Modelled from the spec: `set_last_llm_call_with_tools` is imported and
called by llm.py (line 5, lines 126 and 153) and by
clients/openai_client.py, but src/agent_trace/context.py does not define
it.  Spec section 4.3: when an LLM response contains tool-call requests,
the wrapper records that LLMCall as the most recent call that produced
tool requests in a single ambient slot. -/
def set_last_llm_call_with_tools (s : CtxState) (c : LLMCall) : CtxState :=
  { s with last_llm_call_with_tools := some c }

/-- Modelled from the spec: `record_stt_call` is imported and called by
stt.py but absent from src/agent_trace/context.py.  Spec section 4.2 step
6: register the completed record with the ambient trace (nothing happens
when no trace is in scope). -/
def record_stt_call (s : CtxState) (c : STTCall) : CtxState :=
  match s.current_trace with
  | Option.none => s
  | some tr => { s with current_trace := some (tr.add_stt_call c) }

/-- Modelled from the spec: `record_tts_call` is imported and called by
tts.py but absent from src/agent_trace/context.py.  Spec section 4.2 step
6: register the completed record with the ambient trace (nothing happens
when no trace is in scope). -/
def record_tts_call (s : CtxState) (c : TTSCall) : CtxState :=
  match s.current_trace with
  | Option.none => s
  | some tr => { s with current_trace := some (tr.add_tts_call c) }

/-! Provider result shape.  The LLM wrapper reads provider results by duck
typing; the embedding models results in the OpenAI chat shape that llm.py
handles (the `.content` and `.text` attribute branches of the extraction
heuristics apply to other shapes and are absent here).  An `Option` field
is `none` when the attribute is absent or `None`. -/

/-- The `.function` sub-object of one entry of
`choices[0].message.tool_calls`. -/
structure ProviderToolCallFunction where
  name : String
  arguments : String
  deriving Repr, DecidableEq

/-- One entry of `choices[0].message.tool_calls`. -/
structure ProviderToolCall where
  id : String
  function : ProviderToolCallFunction
  deriving Repr, DecidableEq

/-- The `.message` of a choice: `content` is its value (possibly `None`),
`tool_calls` is `none` when absent or `None` (an empty list is falsy for
the `if choice.message.tool_calls:` test just like `None`). -/
structure ProviderMessage where
  content : Option String
  tool_calls : Option (List ProviderToolCall)
  deriving Repr, DecidableEq

/-- One element of `result.choices`. -/
structure ProviderChoice where
  message : ProviderMessage
  deriving Repr, DecidableEq

/-- The `.usage` object of a provider result.  Each field is `some v` when
the attribute is present (the `hasattr` test of llm.py succeeds) and holds
an integer token count.  `total_tokens` is the total reported by the
provider; llm.py never reads it. -/
structure ProviderUsage where
  input_tokens : Option Int
  prompt_tokens : Option Int
  output_tokens : Option Int
  completion_tokens : Option Int
  total_tokens : Option Int
  deriving Repr, DecidableEq

/-- A provider result in the OpenAI chat shape: a `choices` list (empty is
falsy for `result.choices`), an optional `usage` object (`none` when the
attribute is absent or falsy), and `as_string`, the value of
`str(result)` used by the final stringification fallback. -/
structure ProviderResult where
  choices : List ProviderChoice
  usage : Option ProviderUsage
  as_string : String
  deriving Repr, DecidableEq

/-- llm.py `LLMWrapper._extract_response_content` (lines 50-72) restricted
to the OpenAI chat shape: a result with a nonempty `choices` list yields
`choices[0].message.content`; otherwise the `str(result)` fallback fires
(a result object is always truthy). -/
def LLMWrapper.extract_response_content (r : ProviderResult) : Option String :=
  match r.choices with
  | choice :: _ => choice.message.content
  | [] => some r.as_string

/-- llm.py `LLMWrapper._extract_usage` (lines 74-88): starts from
`TokenUsage()`; when a truthy `usage` attribute exists, reads prompt
tokens from `input_tokens` when that attribute exists, else from
`prompt_tokens` when that exists; completion tokens likewise from
`output_tokens` else `completion_tokens`; then overwrites `total_tokens`
with the local sum. -/
def LLMWrapper.extract_usage (ru : Option ProviderUsage) : TokenUsage :=
  match ru with
  | Option.none => TokenUsage.init
  | some u =>
    let pt : Int :=
      match u.input_tokens with
      | some v => v
      | Option.none =>
        match u.prompt_tokens with
        | some v => v
        | Option.none => TokenUsage.init.prompt_tokens
    let ct : Int :=
      match u.output_tokens with
      | some v => v
      | Option.none =>
        match u.completion_tokens with
        | some v => v
        | Option.none => TokenUsage.init.completion_tokens
    { prompt_tokens := pt, completion_tokens := ct, total_tokens := pt + ct }

/-- llm.py `LLMWrapper._extract_tool_calls` (lines 90-103): reads
`choices[0].message.tool_calls` when the choices list is nonempty and the
`tool_calls` value is truthy, building one `ToolCallRequest` per entry. -/
def LLMWrapper.extract_tool_calls (r : ProviderResult) : List ToolCallRequest :=
  match r.choices with
  | [] => []
  | choice :: _ =>
    match choice.message.tool_calls with
    | Option.none => []
    | some tcs =>
      tcs.map fun tc =>
        { tool_call_id := tc.id
          tool_name := tc.function.name
          arguments_raw := tc.function.arguments
          arguments_parsed := Option.none }

/-- llm.py `LLMWrapper._call_sync` (lines 109-135).  The wrapped provider
function is represented by its outcome `f_outcome` (it does not touch the
context state; `msgs` stands for the result of `_extract_messages`).
Success path: extract content, usage and tool calls, set finish reason
`"stop"`, complete the call at `t1`, record the call in the ambient slot
for tool linking when it produced tool calls, then (the `finally` block)
register it with the current trace and (leaving the `with` block) reset
the current-LLM-call slot.  Error path: set finish reason
`"error: " ++ msg`, complete, register, reset, re-raise.  Returns the
outcome, the final state and the recorded `LLMCall`. -/
def LLMWrapper.call_sync (callId provider model : String)
    (msgs : List (String × String)) (f_outcome : Except Exc ProviderResult)
    (s : CtxState) (t0 t1 : Nat) :
    Except Exc ProviderResult × CtxState × LLMCall :=
  let llm_call := LLMCall.init callId provider model msgs t0
  let (s1, token) := LLMCallContext.enter s llm_call
  match f_outcome with
  | Except.ok result =>
    let llm_call :=
      { llm_call with
        response_content := LLMWrapper.extract_response_content result
        usage := LLMWrapper.extract_usage result.usage
        response_tool_calls := LLMWrapper.extract_tool_calls result
        response_finish_reason := some "stop" }
    let llm_call := llm_call.complete t1
    let s2 :=
      if llm_call.response_tool_calls.isEmpty then s1
      else set_last_llm_call_with_tools s1 llm_call
    let s3 := record_llm_call s2 llm_call
    let s4 := LLMCallContext.exit s3 token
    (Except.ok result, s4, llm_call)
  | Except.error e =>
    let llm_call :=
      { llm_call with response_finish_reason := some ("error: " ++ e.msg) }
    let llm_call := llm_call.complete t1
    let s3 := record_llm_call s1 llm_call
    let s4 := LLMCallContext.exit s3 token
    (Except.error e, s4, llm_call)

/-- tool.py `ToolWrapper._call_sync` (lines 122-133).  The wrapped
function is represented by its outcome; `args` stands for the bound
arguments computed by `_create_execution`.  On success the execution is
completed with the result, on error with the stringified exception, and
in both cases (the `finally` block) it is registered via
`record_tool_execution`.  Returns the outcome, the updated state and the
execution record as registered. -/
def ToolWrapper.call_sync (execId toolName : String)
    (args : List (String × Value)) (f_outcome : Except Exc Value)
    (s : CtxState) (t0 t1 : Nat) :
    Except Exc Value × CtxState × ToolExecution :=
  let execution := ToolExecution.init execId toolName args t0
  match f_outcome with
  | Except.ok result =>
    let execution := execution.complete t1 (some result) Option.none
    (Except.ok result, record_tool_execution s execution, execution)
  | Except.error e =>
    let execution := execution.complete t1 Option.none (some e.msg)
    (Except.error e, record_tool_execution s execution, execution)

/-- tts.py `TTSWrapper._call_sync` (lines 60-77): build the `TTSCall` with
the extracted input text, run the wrapped function, complete the record
(with the stringified error on the error path) and register it in the
`finally` block. -/
def TTSWrapper.call_sync (callId provider model : String)
    (voice : Option String) (input_text : String)
    (output_format : Option String) (f_outcome : Except Exc Value)
    (s : CtxState) (t0 t1 : Nat) :
    Except Exc Value × CtxState × TTSCall :=
  let tts_call : TTSCall :=
    { call_id := callId
      provider := provider
      model := model
      voice := voice
      input_text := input_text
      input_chars := input_text.length
      output_audio_duration_ms := Option.none
      output_format := output_format
      started_at := t0
      ended_at := Option.none
      status := TTSStatus.PENDING
      error := Option.none }
  match f_outcome with
  | Except.ok result =>
    let tts_call := tts_call.complete t1 Option.none
    (Except.ok result, record_tts_call s tts_call, tts_call)
  | Except.error e =>
    let tts_call := tts_call.complete t1 (some e.msg)
    (Except.error e, record_tts_call s tts_call, tts_call)

/-- The field names of the `STTCall` dataclass (models.py lines 82-99); a
dataclass generated `__init__` accepts exactly these as keyword
arguments. -/
def sttCallFieldNames : List String :=
  ["call_id", "provider", "model", "audio_duration_ms", "audio_format",
   "language", "transcript", "confidence", "word_timestamps",
   "started_at", "ended_at", "status", "error"]

/-- The keyword arguments that stt.py `STTWrapper._call_sync` (lines
152-159) passes to the `STTCall` constructor. -/
def sttWrapperInitKwargNames : List String :=
  ["provider", "model", "function_name", "audio_format", "language",
   "audio_duration_ms"]

/-- The keyword check of a dataclass generated `__init__`: constructing
with a keyword that is not a field raises
`TypeError: unexpected keyword argument`. -/
def dataclassInitCheck (fields kwargs : List String) : Except Exc Unit :=
  match kwargs.find? (fun k => !fields.contains k) with
  | some k => Except.error { msg := "unexpected keyword argument " ++ k }
  | Option.none => Except.ok ()

/-- stt.py `STTWrapper._call_sync` (lines 148-179): the first statement
constructing the record,
`STTCall(provider=…, model=…, function_name=…, audio_format=…,
language=…, audio_duration_ms=…)`, runs before the wrapped function is
invoked.  `STTCall` (models.py lines 82-99) has no `function_name` field,
so the dataclass `__init__` raises `TypeError` and the wrapped function is
never reached.  In the (here unreachable) branch where construction
succeeds, the wrapper behaves like the tts wrapper: it preserves the
wrapped function outcome. -/
def STTWrapper.call_sync (f_outcome : Except Exc Value) (s : CtxState) :
    Except Exc Value × CtxState :=
  match dataclassInitCheck sttCallFieldNames sttWrapperInitKwargNames with
  | Except.error e => (Except.error e, s)
  | Except.ok _ => (f_outcome, s)

/-- agent.py `AgentWrapper._call_sync` (lines 41-53): construct the trace
with the captured input, publish it as the last trace (the stored
reference aliases the trace object, so the retained value is the final
mutated trace, returned as the third component), enter the trace context,
run the body (which may register child records through the context
state), and complete.  On success the trace is completed once with the
output (the context exit then only resets the slot); on a thrown error
the except handler completes the trace with the stringified error at
`tc` and the propagating exception makes `TraceContext.__exit__` complete
it a second time at `te`.  The body is assumed well bracketed (it
restores the current-trace slot on exit, as every wrapper in the
repository does), so the `getD` fallback is unreachable. -/
def AgentWrapper.call_sync (traceId name : String) (inp : Option Value)
    (body : CtxState → Except Exc Value × CtxState)
    (s : CtxState) (t0 tc te : Nat) :
    Except Exc Value × CtxState × Trace :=
  let trace0 := Trace.init traceId name inp t0
  let (s1, token) := TraceContext.enter s trace0
  let (outcome, s2) := body s1
  let traceMut := s2.current_trace.getD trace0
  match outcome with
  | Except.ok result =>
    let traceDone := traceMut.complete tc (some result) Option.none
    let (s3, _) := TraceContext.exit s2 token traceDone Option.none te
    (Except.ok result, s3, traceDone)
  | Except.error e =>
    let traceExcept := traceMut.complete tc Option.none (some e.msg)
    let (s3, traceFinal) := TraceContext.exit s2 token traceExcept (some e) te
    (Except.error e, s3, traceFinal)

/-- storage.py `InMemoryTraceStore._traces`: a Python dict keyed by trace
id, represented as an association list in insertion order (dict update
keeps the original position of an existing key). -/
abbrev InMemoryTraceStore := List (String × Trace)

/-- storage.py `InMemoryTraceStore.save` (lines 29-30):
`self._traces[trace.trace_id] = trace`.  Dict update semantics on the
association list: replace the value at an existing key in place, append a
new key at the end. -/
def InMemoryTraceStore.save : InMemoryTraceStore → Trace → InMemoryTraceStore
  | [], tr => [(tr.trace_id, tr)]
  | p :: rest, tr =>
    if p.1 == tr.trace_id then (p.1, tr) :: rest
    else p :: InMemoryTraceStore.save rest tr

/-- storage.py `InMemoryTraceStore.get` (lines 32-33):
`self._traces.get(trace_id)`. -/
def InMemoryTraceStore.get (st : InMemoryTraceStore) (traceId : String) :
    Option Trace :=
  (st.find? (fun p => p.1 == traceId)).map Prod.snd

/-- The values view `list(self._traces.values())` in insertion order. -/
def InMemoryTraceStore.values (st : InMemoryTraceStore) : List Trace :=
  st.map Prod.snd

/-- storage.py `InMemoryTraceStore.list` (lines 35-38): copy the values,
stable sort descending by `started_at` (Python `list.sort` with
`reverse=True` is stable, as is `List.mergeSort`), truncate to `limit`. -/
def InMemoryTraceStore.list (st : InMemoryTraceStore) (limit : Nat) :
    List Trace :=
  (st.values.mergeSort (fun a b => decide (b.started_at ≤ a.started_at))).take limit

/-- Models one invocation of an agent-wrapped function with a persistence
store configured (`_config.store` set through `configure`, config.py
lines 34-41 and 47-84).  `AgentWrapper._call_sync` (agent.py lines 41-53)
neither reads the configuration nor calls `save`, and no code under
src/agent_trace invokes `TraceStore.save` on the configured store, so the
store passes through the invocation unchanged. -/
def agentInvokeWithStore (traceId name : String) (inp : Option Value)
    (body : CtxState → Except Exc Value × CtxState) (s : CtxState)
    (store : InMemoryTraceStore) (t0 tc te : Nat) :
    (Except Exc Value × CtxState × Trace) × InMemoryTraceStore :=
  (AgentWrapper.call_sync traceId name inp body s t0 tc te, store)

/-! Concrete records and scenario states used by the theorems below. -/

/-- An empty context state: no trace, no LLM call in scope. -/
def emptyCtxState : CtxState :=
  { current_trace := Option.none
    current_llm_call := Option.none
    last_llm_call_with_tools := Option.none }

/-- A sample completed-free STT record (all dataclass defaults). -/
def sampleSTTCall : STTCall :=
  { call_id := "S0"
    provider := "deepgram"
    model := "nova-2"
    audio_duration_ms := Option.none
    audio_format := Option.none
    language := Option.none
    transcript := Option.none
    confidence := Option.none
    word_timestamps := Option.none
    started_at := 0
    ended_at := Option.none
    status := STTStatus.PENDING
    error := Option.none }

/-- A sample fresh TTS record (all dataclass defaults). -/
def sampleTTSCall : TTSCall :=
  { call_id := "V0"
    provider := "elevenlabs"
    model := "eleven"
    voice := Option.none
    input_text := "hi"
    input_chars := 2
    output_audio_duration_ms := Option.none
    output_format := Option.none
    started_at := 0
    ended_at := Option.none
    status := TTSStatus.PENDING
    error := Option.none }

/-- The active trace of the correlation scenario of claim C1. -/
def c1Trace0 : Trace :=
  Trace.init "T1" "multi_tool_agent" (some (Value.str "question")) 0

/-- Scenario C1, initial state: the agent has bound `c1Trace0` as the
current trace; no LLM call is in scope. -/
def c1State0 : CtxState :=
  { current_trace := some c1Trace0
    current_llm_call := Option.none
    last_llm_call_with_tools := Option.none }

/-- Scenario C1: a provider response carrying two tool-call requests. -/
def c1ProviderResult : ProviderResult :=
  { choices :=
      [{ message :=
          { content := Option.none
            tool_calls :=
              some
                [{ id := "tc1", function := { name := "toolA", arguments := "\x7b\x7d" } },
                 { id := "tc2", function := { name := "toolB", arguments := "\x7b\x7d" } }] } }]
    usage := Option.none
    as_string := "resp" }

/-- Scenario C1, step 1: the LLM wrapper runs and returns the response
with two tool-call requests. -/
def c1AfterLLM : Except Exc ProviderResult × CtxState × LLMCall :=
  LLMWrapper.call_sync "L1" "openai" "gpt-4" [("user", "question")]
    (Except.ok c1ProviderResult) c1State0 1 2

/-- Scenario C1, step 2: the first tool executes sequentially after the
LLM wrapper has returned. -/
def c1AfterTool1 : Except Exc Value × CtxState × ToolExecution :=
  ToolWrapper.call_sync "E1" "toolA" [] (Except.ok (Value.str "r1"))
    c1AfterLLM.2.1 3 4

/-- Scenario C1, step 3: the second tool executes. -/
def c1AfterTool2 : Except Exc Value × CtxState × ToolExecution :=
  ToolWrapper.call_sync "E2" "toolB" [] (Except.ok (Value.str "r2"))
    c1AfterTool1.2.1 5 6

/-- Scenario C1: the context state after both tool executions. -/
def c1FinalState : CtxState := c1AfterTool2.2.1

/-- A fresh trace used by the completion theorems. -/
def c2Trace : Trace := Trace.init "T2" "agent" Option.none 0

/-- A sample fresh LLM call record. -/
def sampleLLMCall : LLMCall := LLMCall.init "L0" "openai" "gpt-4" [] 0

/-- A sample fresh tool execution record. -/
def sampleToolExecution : ToolExecution := ToolExecution.init "E0" "toolZ" [] 0

/-- The trace in scope for the counterexample state of claim C4. -/
def c4State : CtxState :=
  { current_trace := some (Trace.init "T4" "agent" Option.none 0)
    current_llm_call := Option.none
    last_llm_call_with_tools := Option.none }

/-- A one-entry store whose only key is "B". -/
def c9StoreB : InMemoryTraceStore := [("B", c2Trace)]

/-- A trace with id "A". -/
def c9TraceFirst : Trace := Trace.init "A" "first" Option.none 5

/-- A second, different trace with the same id "A". -/
def c9TraceSecond : Trace := Trace.init "A" "second" Option.none 7

/-! Theorems. -/

/-- A nonempty string is truthy. -/
theorem strTruthy_some_of_ne (m : String) (h : m ≠ "") :
    strTruthy (some m) = true := by
  simp [strTruthy]
  exact h

/-- Claim C1, evaluation of the code at the failing input: in the scenario
of one LLM call whose response carries two tool-call requests, followed by
two sequential tool executions registered on the same trace, the LLM call
is recorded on the trace and the ambient last-LLM-call-with-tools slot
holds that call, yet both appended ToolExecution records end with
`llm_call_id = None`: `record_tool_execution` stamps from the
current-LLM-call slot, which `LLMCallContext` already reset when the LLM
wrapper returned, and never consults the slot the LLM wrapper populated.
The claim requires both records to carry the LLMCall identifier. -/
theorem c1_sequential_tool_executions_not_correlated :
    c1AfterLLM.2.2.response_tool_calls.length = 2 ∧
    c1FinalState.last_llm_call_with_tools.map LLMCall.call_id = some "L1" ∧
    c1FinalState.current_trace.map (fun tr => tr.llm_calls.map LLMCall.call_id)
      = some ["L1"] ∧
    c1FinalState.current_trace.map
        (fun tr => tr.tool_executions.map ToolExecution.llm_call_id)
      = some [Option.none, Option.none] := by
  refine ⟨rfl, rfl, rfl, rfl⟩

/-- Claim C2, counterexample: calling `Trace.complete` a second time on the
same record silently moves `ended_at` from the first completion time to
the second one, contradicting the claim that a second call does not
silently change `ended_at`. -/
theorem c2_counterexample_second_complete_changes_ended_at :
    (c2Trace.complete 1 Option.none Option.none).ended_at = some 1 ∧
    ((c2Trace.complete 1 Option.none Option.none).complete 2
        Option.none Option.none).ended_at = some 2 ∧
    some (2 : Nat) ≠ some (1 : Nat) :=
  ⟨rfl, rfl, by decide⟩

/-- Claim C2 as amended: the status stays ACTIVE until the first complete
call in the sense that the child-registration operations never touch
status or end timestamp, every call of `complete` (first or later)
unconditionally overwrites `ended_at` with the call time and leaves a
terminal status, and an agent invocation whose wrapped function throws
records `complete` twice on its trace — once in the except handler of
`AgentWrapper._call_sync` at `tcomp` and once more in
`TraceContext.__exit__` at `texit` — so the final trace carries the exit
completion time, status ERROR and the stringified error. -/
theorem c2_amended_completion_behavior
    (tr : Trace) (t : Nat) (out : Option Value) (err : Option String)
    (c : LLMCall) (e : ToolExecution) (sc : STTCall) (tc : TTSCall)
    (traceId name : String) (inp : Option Value) (s : CtxState)
    (exc : Exc) (t0 tcomp texit : Nat) (hmsg : exc.msg ≠ "") :
    (tr.complete t out err).ended_at = some t ∧
    (tr.complete t out err).status ≠ TraceStatus.ACTIVE ∧
    ((tr.add_llm_call c).status = tr.status ∧
     (tr.add_llm_call c).ended_at = tr.ended_at) ∧
    ((tr.add_tool_execution e).status = tr.status ∧
     (tr.add_tool_execution e).ended_at = tr.ended_at) ∧
    ((tr.add_stt_call sc).status = tr.status ∧
     (tr.add_stt_call sc).ended_at = tr.ended_at) ∧
    ((tr.add_tts_call tc).status = tr.status ∧
     (tr.add_tts_call tc).ended_at = tr.ended_at) ∧
    ((AgentWrapper.call_sync traceId name inp
        (fun st => (Except.error exc, st)) s t0 tcomp texit).2.2.status
      = TraceStatus.ERROR ∧
     (AgentWrapper.call_sync traceId name inp
        (fun st => (Except.error exc, st)) s t0 tcomp texit).2.2.error
      = some exc.msg ∧
     (AgentWrapper.call_sync traceId name inp
        (fun st => (Except.error exc, st)) s t0 tcomp texit).2.2.ended_at
      = some texit) := by
  have hb : strTruthy (some exc.msg) = true := strTruthy_some_of_ne exc.msg hmsg
  refine ⟨?_, ?_, ⟨rfl, rfl⟩, ⟨rfl, rfl⟩, ⟨rfl, rfl⟩, ⟨rfl, rfl⟩, ?_, ?_, ?_⟩
  · unfold Trace.complete
    by_cases h : strTruthy err <;> simp [h]
  · unfold Trace.complete
    by_cases h : strTruthy err <;> simp [h]
  · simp [AgentWrapper.call_sync, TraceContext.enter, TraceContext.exit,
      Trace.complete, hb]
  · simp [AgentWrapper.call_sync, TraceContext.enter, TraceContext.exit,
      Trace.complete, hb]
  · simp [AgentWrapper.call_sync, TraceContext.enter, TraceContext.exit,
      Trace.complete, hb]

/-- Claim C2, witness for the amended statement at concrete inputs. -/
theorem c2_amended_completion_behavior_witness :
    ("boom" ≠ "") ∧
    ((c2Trace.complete 3 Option.none Option.none).ended_at = some 3 ∧
     (c2Trace.complete 3 Option.none Option.none).status ≠ TraceStatus.ACTIVE ∧
     ((c2Trace.add_llm_call sampleLLMCall).status = c2Trace.status ∧
      (c2Trace.add_llm_call sampleLLMCall).ended_at = c2Trace.ended_at) ∧
     ((c2Trace.add_tool_execution sampleToolExecution).status = c2Trace.status ∧
      (c2Trace.add_tool_execution sampleToolExecution).ended_at = c2Trace.ended_at) ∧
     ((c2Trace.add_stt_call sampleSTTCall).status = c2Trace.status ∧
      (c2Trace.add_stt_call sampleSTTCall).ended_at = c2Trace.ended_at) ∧
     ((c2Trace.add_tts_call sampleTTSCall).status = c2Trace.status ∧
      (c2Trace.add_tts_call sampleTTSCall).ended_at = c2Trace.ended_at) ∧
     ((AgentWrapper.call_sync "T2" "agent" Option.none
         (fun st => (Except.error { msg := "boom" }, st)) emptyCtxState 0 1 2).2.2.status
       = TraceStatus.ERROR ∧
      (AgentWrapper.call_sync "T2" "agent" Option.none
         (fun st => (Except.error { msg := "boom" }, st)) emptyCtxState 0 1 2).2.2.error
       = some "boom" ∧
      (AgentWrapper.call_sync "T2" "agent" Option.none
         (fun st => (Except.error { msg := "boom" }, st)) emptyCtxState 0 1 2).2.2.ended_at
       = some 2)) :=
  ⟨by decide,
   c2_amended_completion_behavior c2Trace 3 Option.none Option.none
     sampleLLMCall sampleToolExecution sampleSTTCall sampleTTSCall
     "T2" "agent" Option.none emptyCtxState { msg := "boom" } 0 1 2 (by decide)⟩

/-- Claim C3, evaluation of the code at the failing input: calling an
stt-wrapped function whose underlying function would return successfully
raises a `TypeError` instead, because `STTWrapper._call_sync` constructs
`STTCall(…, function_name=…, …)` while the `STTCall` dataclass of
models.py has no `function_name` field; the wrapper thus changes the
success outcome of the wrapped function, which the claim forbids. -/
theorem c3_stt_wrapper_changes_outcome :
    (STTWrapper.call_sync (Except.ok (Value.str "transcribed")) emptyCtxState).1
      = Except.error { msg := "unexpected keyword argument function_name" } ∧
    (STTWrapper.call_sync (Except.ok (Value.str "transcribed")) emptyCtxState).1
      ≠ Except.ok (Value.str "transcribed") :=
  ⟨rfl, fun h => Except.noConfusion h⟩

/-- Claim C4, counterexample: a tool whose underlying function raises an
exception with an empty stringified message (such as `ValueError()`)
still re-raises, but the resulting ToolExecution is marked SUCCESS with
`error = None`, not ERROR as the claim states for every exception:
`ToolExecution.complete` branches on the truthiness of the error string
and the empty string is falsy. -/
theorem c4_counterexample_empty_message_exception :
    (ToolWrapper.call_sync "E4" "toolA" [] (Except.error { msg := "" })
        c4State 1 2).2.2.status = ToolExecutionStatus.SUCCESS ∧
    (ToolWrapper.call_sync "E4" "toolA" [] (Except.error { msg := "" })
        c4State 1 2).2.2.status ≠ ToolExecutionStatus.ERROR ∧
    (ToolWrapper.call_sync "E4" "toolA" [] (Except.error { msg := "" })
        c4State 1 2).2.2.error = Option.none ∧
    (ToolWrapper.call_sync "E4" "toolA" [] (Except.error { msg := "" })
        c4State 1 2).1 = Except.error { msg := "" } :=
  ⟨rfl, by decide, rfl, rfl⟩

/-- Claim C4 as amended: for every wrapped tool whose underlying function
raises an exception with a nonempty stringified message (such as
`ValueError` with message `rate limit`), the wrapper re-raises the same
exception, and the resulting ToolExecution record has status ERROR, error
equal to the stringified message, and result `None`; when the stringified
message is empty the record is instead marked SUCCESS with `error = None`
(the exception is still re-raised). -/
theorem c4_amended_tool_error_propagation
    (execId toolName : String) (args : List (String × Value))
    (e : Exc) (s : CtxState) (t0 t1 : Nat) (h : e.msg ≠ "") :
    (ToolWrapper.call_sync execId toolName args (Except.error e) s t0 t1).1
      = Except.error e ∧
    (ToolWrapper.call_sync execId toolName args (Except.error e) s t0 t1).2.2.status
      = ToolExecutionStatus.ERROR ∧
    (ToolWrapper.call_sync execId toolName args (Except.error e) s t0 t1).2.2.error
      = some e.msg ∧
    (ToolWrapper.call_sync execId toolName args (Except.error e) s t0 t1).2.2.result
      = Option.none := by
  have hb : strTruthy (some e.msg) = true := strTruthy_some_of_ne e.msg h
  refine ⟨rfl, ?_, ?_, ?_⟩ <;>
    simp [ToolWrapper.call_sync, ToolExecution.complete, ToolExecution.init, hb]

/-- Claim C4, witness for the amended statement: a tool raising
`ValueError` with message `rate limit`. -/
theorem c4_amended_tool_error_propagation_witness :
    ("rate limit" ≠ "") ∧
    ((ToolWrapper.call_sync "E4" "toolA" [] (Except.error { msg := "rate limit" })
        c4State 1 2).1 = Except.error { msg := "rate limit" } ∧
     (ToolWrapper.call_sync "E4" "toolA" [] (Except.error { msg := "rate limit" })
        c4State 1 2).2.2.status = ToolExecutionStatus.ERROR ∧
     (ToolWrapper.call_sync "E4" "toolA" [] (Except.error { msg := "rate limit" })
        c4State 1 2).2.2.error = some "rate limit" ∧
     (ToolWrapper.call_sync "E4" "toolA" [] (Except.error { msg := "rate limit" })
        c4State 1 2).2.2.result = Option.none) :=
  ⟨by decide,
   c4_amended_tool_error_propagation "E4" "toolA" [] { msg := "rate limit" }
     c4State 1 2 (by decide)⟩

/-- Claim C5, evaluation of the code at the failing input: invoking an
agent-wrapped function with an in-memory store configured completes the
trace and retains it as the last trace (third component of the wrapper
result, aliased by `_last_trace`), but the configured store is left
untouched — `AgentWrapper._call_sync` never hands the completed trace to
`save`, so the trace is not retrievable from the store afterwards. -/
theorem c5_trace_retained_but_never_saved :
    (agentInvokeWithStore "T5" "agent" (some (Value.str "q"))
        (fun st => (Except.ok (Value.str "out"), st)) emptyCtxState [] 0 1 2).1.2.2.status
      = TraceStatus.COMPLETED ∧
    (agentInvokeWithStore "T5" "agent" (some (Value.str "q"))
        (fun st => (Except.ok (Value.str "out"), st)) emptyCtxState [] 0 1 2).1.2.2.output
      = some (Value.str "out") ∧
    (agentInvokeWithStore "T5" "agent" (some (Value.str "q"))
        (fun st => (Except.ok (Value.str "out"), st)) emptyCtxState [] 0 1 2).1.2.2.trace_id
      = "T5" ∧
    (agentInvokeWithStore "T5" "agent" (some (Value.str "q"))
        (fun st => (Except.ok (Value.str "out"), st)) emptyCtxState [] 0 1 2).2
      = [] ∧
    InMemoryTraceStore.get
      (agentInvokeWithStore "T5" "agent" (some (Value.str "q"))
        (fun st => (Except.ok (Value.str "out"), st)) emptyCtxState [] 0 1 2).2 "T5"
      = Option.none :=
  ⟨rfl, rfl, rfl, rfl, rfl⟩

/-- Claim C6: with no trace in scope, registering an LLM call or a tool
execution is a silent no-op — the context state is returned unchanged —
and the tool and LLM wrappers still return the wrapped function outcome
unchanged, with the current-trace slot still empty afterwards. -/
theorem c6_no_trace_registration_is_silent_noop
    (o1 o2 : Option LLMCall) (c : LLMCall) (e : ToolExecution)
    (execId toolName : String) (args : List (String × Value))
    (fo : Except Exc Value)
    (callId provider model : String) (msgs : List (String × String))
    (fr : Except Exc ProviderResult) (t0 t1 : Nat) :
    record_llm_call ⟨Option.none, o1, o2⟩ c = ⟨Option.none, o1, o2⟩ ∧
    record_tool_execution ⟨Option.none, o1, o2⟩ e = ⟨Option.none, o1, o2⟩ ∧
    (ToolWrapper.call_sync execId toolName args fo ⟨Option.none, o1, o2⟩ t0 t1).1
      = fo ∧
    (ToolWrapper.call_sync execId toolName args fo
        ⟨Option.none, o1, o2⟩ t0 t1).2.1.current_trace = Option.none ∧
    (LLMWrapper.call_sync callId provider model msgs fr
        ⟨Option.none, o1, o2⟩ t0 t1).1 = fr ∧
    (LLMWrapper.call_sync callId provider model msgs fr
        ⟨Option.none, o1, o2⟩ t0 t1).2.1.current_trace = Option.none := by
  refine ⟨rfl, rfl, ?_, ?_, ?_, ?_⟩
  · cases fo <;> rfl
  · cases fo <;> rfl
  · cases fr <;> rfl
  · cases fr with
    | ok r =>
      simp only [LLMWrapper.call_sync, LLMCallContext.enter, LLMCallContext.exit]
      split <;> rfl
    | error e => rfl

/-- Claim C7: the scoped-binding primitives restore the previous slot
value on exit.  `enter` returns the token holding the previous value;
`exit` writes that token back, whatever state the body left behind
(`sExit`) and whether an exception is propagating (`exc`) or not, for
both the trace context and the LLM-call context. -/
theorem c7_contexts_restore_previous_value_on_exit
    (s sExit : CtxState) (tr trObj : Trace) (exc : Option Exc)
    (t : Nat) (c : LLMCall) :
    (TraceContext.exit sExit (TraceContext.enter s tr).2 trObj exc t).1.current_trace
      = s.current_trace ∧
    (LLMCallContext.exit sExit (LLMCallContext.enter s c).2).current_llm_call
      = s.current_llm_call := by
  constructor
  · cases exc <;> rfl
  · rfl

/-- Claim C8: token-usage extraction reads prompt tokens from
`usage.input_tokens` when that attribute exists, else from
`usage.prompt_tokens`, else keeps the default 0; completion tokens
likewise from `usage.output_tokens` else `usage.completion_tokens`; the
extracted `total_tokens` always equals the sum of the extracted prompt
and completion counts, and the extraction result never depends on the
total reported by the provider. -/
theorem c8_usage_extraction_sums_locally
    (a b c d e x : Option Int) (ru : Option ProviderUsage) :
    (LLMWrapper.extract_usage ru).total_tokens
      = (LLMWrapper.extract_usage ru).prompt_tokens
        + (LLMWrapper.extract_usage ru).completion_tokens ∧
    (LLMWrapper.extract_usage (some ⟨a, b, c, d, x⟩)).prompt_tokens
      = a.getD (b.getD 0) ∧
    (LLMWrapper.extract_usage (some ⟨a, b, c, d, x⟩)).completion_tokens
      = c.getD (d.getD 0) ∧
    LLMWrapper.extract_usage (some ⟨a, b, c, d, x⟩)
      = LLMWrapper.extract_usage (some ⟨a, b, c, d, e⟩) := by
  refine ⟨?_, ?_, ?_, rfl⟩
  · cases ru with
    | none => rfl
    | some u => rfl
  · cases a <;> cases b <;> rfl
  · cases c <;> cases d <;> rfl

/-- Claim C10: every `complete` operation chooses the error branch by the
truthiness of the error string, so completing with an empty-string error
takes the success branch: the record is marked SUCCESS (COMPLETED for a
trace), never ERROR, and its error field is left as it was — null for any
freshly constructed record. -/
theorem c10_empty_string_error_completes_success
    (e : ToolExecution) (sc : STTCall) (tc : TTSCall) (tr : Trace)
    (t : Nat) (r : Option Value) (ts : Option String) (out : Option Value) :
    ((e.complete t r (some "")).status = ToolExecutionStatus.SUCCESS ∧
     (e.complete t r (some "")).error = e.error ∧
     (e.complete t r (some "")).status ≠ ToolExecutionStatus.ERROR) ∧
    ((sc.complete t ts (some "")).status = STTStatus.SUCCESS ∧
     (sc.complete t ts (some "")).error = sc.error) ∧
    ((tc.complete t (some "")).status = TTSStatus.SUCCESS ∧
     (tc.complete t (some "")).error = tc.error) ∧
    ((tr.complete t out (some "")).status = TraceStatus.COMPLETED ∧
     (tr.complete t out (some "")).error = tr.error) := by
  exact ⟨⟨rfl, rfl, fun h => ToolExecutionStatus.noConfusion h⟩,
    ⟨rfl, rfl⟩, ⟨rfl, rfl⟩, ⟨rfl, rfl⟩⟩

/-- Looking up the key just saved returns the saved trace. -/
theorem InMemoryTraceStore.get_save_self (st : InMemoryTraceStore) (t : Trace) :
    (st.save t).get t.trace_id = some t := by
  induction st with
  | nil => simp [InMemoryTraceStore.save, InMemoryTraceStore.get]
  | cons p rest ih =>
    by_cases h : p.1 == t.trace_id
    · simp [InMemoryTraceStore.save, InMemoryTraceStore.get, h]
    · simp only [InMemoryTraceStore.save, h, Bool.false_eq_true, if_false]
      simpa [InMemoryTraceStore.get, List.find?, h] using ih

/-- Saving never changes the set of keys except possibly adding the saved
key, so saving an already-present key preserves the length. -/
theorem InMemoryTraceStore.length_save_of_key_present
    (st : InMemoryTraceStore) (t : Trace)
    (h : (st.any fun p => p.1 == t.trace_id) = true) :
    (st.save t).length = st.length := by
  induction st with
  | nil => simp at h
  | cons p rest ih =>
    by_cases hp : p.1 == t.trace_id
    · simp [InMemoryTraceStore.save, hp]
    · have hrest : (rest.any fun p => p.1 == t.trace_id) = true := by
        simpa [List.any_cons, hp] using h
      simp [InMemoryTraceStore.save, hp, ih hrest]

/-- The key of a saved trace is present afterwards. -/
theorem InMemoryTraceStore.key_present_after_save
    (st : InMemoryTraceStore) (t : Trace) :
    ((st.save t).any fun p => p.1 == t.trace_id) = true := by
  induction st with
  | nil => simp [InMemoryTraceStore.save]
  | cons p rest ih =>
    by_cases hp : p.1 == t.trace_id
    · simp [InMemoryTraceStore.save, hp]
    · simp [InMemoryTraceStore.save, hp, ih]

/-- Claim C9: the in-memory store satisfies the mapping contract —
`get` after `save` returns exactly the saved trace; `get` of an id that
no entry carries returns `None`; `list limit` has length at most `limit`,
is ordered newest-first by start time, and only returns saved traces;
and saving a trace whose id is already present replaces the previous
entry (same lookup result for that id, no growth of the mapping). -/
theorem c9_in_memory_store_contract
    (st st2 : InMemoryTraceStore) (t t2 tr : Trace)
    (traceId : String) (limit : Nat)
    (habs : ∀ p ∈ st2, p.1 ≠ traceId)
    (hid : t2.trace_id = t.trace_id) :
    (st.save t).get t.trace_id = some t ∧
    st2.get traceId = Option.none ∧
    (st.list limit).length ≤ limit ∧
    (st.list limit).Pairwise (fun a b => b.started_at ≤ a.started_at) ∧
    (tr ∈ st.list limit → tr ∈ st.values) ∧
    ((st.save t).save t2).get t.trace_id = some t2 ∧
    ((st.save t).save t2).length = (st.save t).length := by
  refine ⟨InMemoryTraceStore.get_save_self st t, ?_, ?_, ?_, ?_, ?_, ?_⟩
  · have hfind : st2.find? (fun p => p.1 == traceId) = Option.none :=
      List.find?_eq_none.mpr (fun x hx => by simpa using habs x hx)
    simp [InMemoryTraceStore.get, hfind]
  · simp only [InMemoryTraceStore.list]
    simp [List.length_take]
  · have hs : (st.values.mergeSort
        (fun a b => decide (b.started_at ≤ a.started_at))).Pairwise
        (fun a b => decide (b.started_at ≤ a.started_at) = true) :=
      List.sorted_mergeSort
        (fun a b c h1 h2 => by
          simp only [decide_eq_true_eq] at h1 h2 ⊢
          exact Nat.le_trans h2 h1)
        (fun a b => by
          rcases Nat.le_total b.started_at a.started_at with h | h <;> simp [h])
        st.values
    have hTake := hs.sublist (List.take_sublist limit _)
    exact hTake.imp (fun h => by simpa using h)
  · intro h
    have h2 := List.take_subset _ _ h
    exact List.mem_mergeSort.mp h2
  · rw [← hid]
    exact InMemoryTraceStore.get_save_self (st.save t) t2
  · refine InMemoryTraceStore.length_save_of_key_present (st.save t) t2 ?_
    rw [hid]
    exact InMemoryTraceStore.key_present_after_save st t

/-- Claim C9, witness at concrete inputs: a one-entry store whose key
differs from "A", and two distinct traces sharing the id "A". -/
theorem c9_in_memory_store_contract_witness :
    (∀ p ∈ c9StoreB, p.1 ≠ "A") ∧
    c9TraceSecond.trace_id = c9TraceFirst.trace_id ∧
    ((c9StoreB.save c9TraceFirst).get c9TraceFirst.trace_id
        = some c9TraceFirst ∧
     c9StoreB.get "A" = Option.none ∧
     (c9StoreB.list 1).length ≤ 1 ∧
     (c9StoreB.list 1).Pairwise (fun a b => b.started_at ≤ a.started_at) ∧
     (c2Trace ∈ c9StoreB.list 1 → c2Trace ∈ c9StoreB.values) ∧
     ((c9StoreB.save c9TraceFirst).save c9TraceSecond).get c9TraceFirst.trace_id
        = some c9TraceSecond ∧
     ((c9StoreB.save c9TraceFirst).save c9TraceSecond).length
        = (c9StoreB.save c9TraceFirst).length) :=
  ⟨by decide, rfl,
   c9_in_memory_store_contract c9StoreB c9StoreB c9TraceFirst c9TraceSecond
     c2Trace "A" 1 (by decide) rfl⟩

end AgentTrace
